import Mathlib

/-!
Verification of the streaming response aggregation engine of the `agno`
repository: the delta-to-aggregate merge logic (`MessageData`,
`Metrics`, `ModelResponse`, `Model._populate_stream_data`) and its
per-provider metrics-merge policy (`is_cumulative_usage`).

The engine itself (`agno/models/metrics.py`, `agno/models/base.py`,
`agno/models/response.py`, and the provider adapter classes) is not part
of the provided source tree; only its unit tests are
(`libs/agno/tests/unit/models/...`).  The definitions below are
therefore modelled from the specification (sections 3, 4.1, 4.2, 4.3
and 7) and cross-checked against the behaviour asserted by those unit
tests.
-/

namespace Agno

/-- Modelled from the spec: the `Metrics` value type of
`agno/models/metrics.py` (not under the provided sources).  A record of
named non-negative integer counters, all defaulting to 0.  The optional
floating-point timing fields (duration, time-to-first-token) are
omitted: no claim concerns them and they are not counters. -/
structure Metrics where
  input_tokens : Nat := 0
  output_tokens : Nat := 0
  total_tokens : Nat := 0
  reasoning_tokens : Nat := 0
  cache_read_tokens : Nat := 0
  cache_write_tokens : Nat := 0
  audio_input_tokens : Nat := 0
  audio_output_tokens : Nat := 0
  deriving DecidableEq, Repr

/-- Modelled from the spec: the additive-merge operator on `Metrics`
(spec section 4.1): for every field, `result.field = A.field + B.field`.
This is the `Metrics.__iadd__` behaviour exercised by
`test_metrics_accumulation_behavior`. -/
def Metrics.add (a b : Metrics) : Metrics where
  input_tokens := a.input_tokens + b.input_tokens
  output_tokens := a.output_tokens + b.output_tokens
  total_tokens := a.total_tokens + b.total_tokens
  reasoning_tokens := a.reasoning_tokens + b.reasoning_tokens
  cache_read_tokens := a.cache_read_tokens + b.cache_read_tokens
  cache_write_tokens := a.cache_write_tokens + b.cache_write_tokens
  audio_input_tokens := a.audio_input_tokens + b.audio_input_tokens
  audio_output_tokens := a.audio_output_tokens + b.audio_output_tokens

/-- Modelled from the spec: a tool-call fragment as carried by a delta,
correlated by an index/id (spec section 4.2); the accumulator only
appends fragments in arrival order. -/
structure ToolCallFragment where
  index : Nat := 0
  id : Option String := none
  arguments : String := ""
  deriving DecidableEq, Repr

/-- Modelled from the spec: one `ModelResponse` delta
(`agno/models/response.py`, not under the provided sources): optional
content fragment, optional tool-call fragment, optional `Metrics` usage
snapshot (`response_usage`, the field name used by the unit tests),
optional reasoning fragment, and the informational completion flag. -/
structure ModelResponse where
  content_fragment : Option String := none
  tool_call_fragment : Option ToolCallFragment := none
  response_usage : Option Metrics := none
  reasoning_fragment : Option String := none
  is_final : Bool := false
  deriving DecidableEq, Repr

/-- Modelled from the spec: the stream accumulator `MessageData`
(`agno/models/base.py`, not under the provided sources).  `MessageData`
at creation has empty text, no tool-call fragments, `response_metrics`
absent and no reasoning trace — the state the unit tests observe as
`stream_data.response_metrics is None`. -/
structure MessageData where
  accumulated_text : String := ""
  tool_call_fragments : List ToolCallFragment := []
  response_metrics : Option Metrics := none
  reasoning_trace : Option String := none
  deriving DecidableEq, Repr

/-- Modelled from the spec: the metrics-merge step of
`_populate_stream_data` (spec section 4.2).  A first observation always
initializes; afterwards the capability flag selects additive merge
(`false`) or replace merge (`true`). -/
def mergeUsage (is_cumulative_usage : Bool) : Option Metrics → Metrics → Option Metrics
  | none, m => some m
  | some prev, m => some (if is_cumulative_usage then m else prev.add m)

/-- Modelled from the spec: the content-fragment step of absorb — if
present, append to `accumulated_text`. -/
def absorbContent (d : MessageData) (r : ModelResponse) : MessageData :=
  match r.content_fragment with
  | none => d
  | some c => { d with accumulated_text := d.accumulated_text ++ c }

/-- Modelled from the spec: the tool-call step of absorb — if present,
append to `tool_call_fragments` in arrival order. -/
def absorbToolCall (d : MessageData) (r : ModelResponse) : MessageData :=
  match r.tool_call_fragment with
  | none => d
  | some t => { d with tool_call_fragments := d.tool_call_fragments ++ [t] }

/-- Modelled from the spec: the usage step of absorb — if a usage
snapshot is present, merge it into `response_metrics` under the
capability flag's policy. -/
def absorbUsage (is_cumulative_usage : Bool) (d : MessageData) (r : ModelResponse) :
    MessageData :=
  match r.response_usage with
  | none => d
  | some m => { d with response_metrics := mergeUsage is_cumulative_usage d.response_metrics m }

/-- Modelled from the spec: the reasoning step of absorb — if present,
append to the reasoning trace (an absent trace counts as empty). -/
def absorbReasoning (d : MessageData) (r : ModelResponse) : MessageData :=
  match r.reasoning_fragment with
  | none => d
  | some c => { d with reasoning_trace := some (d.reasoning_trace.getD "" ++ c) }

/-- Modelled from the spec: `absorb(delta)` — the state effect of
`Model._populate_stream_data(stream_data, response_delta)` (spec
section 4.2), processing the delta's optional parts field by field;
`is_final` is informational only and changes nothing. -/
def absorb (is_cumulative_usage : Bool) (d : MessageData) (r : ModelResponse) : MessageData :=
  absorbReasoning (absorbUsage is_cumulative_usage (absorbToolCall (absorbContent d r) r) r) r

/-- Absorbing a whole stream of deltas in order: the orchestration loop
of spec section 2 (one `absorb` per delta, in arrival order). -/
def absorbList (is_cumulative_usage : Bool) (d : MessageData) (rs : List ModelResponse) :
    MessageData :=
  rs.foldl (absorb is_cumulative_usage) d

/-- Field-wise sum of a list of metrics snapshots (all-zero for the
empty list), via the additive-merge operator. -/
def sumMetrics (ms : List Metrics) : Metrics :=
  ms.foldl Metrics.add {}

/-- Modelled from the spec: a provider adapter's capability descriptor
(spec sections 2 and 4.3): the `is_cumulative_usage` flag is a static
fact about the provider's wire protocol, fixed at construction; the
base `Model` class default is `false`. -/
structure ProviderAdapter where
  id : String := ""
  is_cumulative_usage : Bool := false
  deriving DecidableEq, Repr

/-- Modelled from the spec: the Claude adapter constructs with
`is_cumulative_usage = true` (replace policy), as asserted by
`test_claude_is_cumulative_usage_flag`. -/
def Claude : ProviderAdapter :=
  { id := "claude-sonnet-4-5-20250929", is_cumulative_usage := true }

/-- Modelled from the spec: the Gemini adapter constructs with
`is_cumulative_usage = true` (replace policy), as asserted by
`test_gemini_is_cumulative_usage_flag`. -/
def Gemini : ProviderAdapter :=
  { id := "gemini-2.0-flash", is_cumulative_usage := true }

/-- Modelled from the spec: the Perplexity adapter constructs with
`is_cumulative_usage = true` (replace policy), as asserted by
`test_perplexity_is_cumulative_usage_flag`. -/
def Perplexity : ProviderAdapter :=
  { id := "sonar", is_cumulative_usage := true }

/-- Modelled from the spec: the OpenAIChat adapter keeps the base-class
default `is_cumulative_usage = false` (additive policy), as asserted by
`test_openai_chat_default_is_cumulative_usage_flag`. -/
def OpenAIChat : ProviderAdapter :=
  { id := "gpt-4o", is_cumulative_usage := false }

/-- Modelled from the spec: the nested `prompt_tokens_details` block of
a raw OpenAI-style usage payload, whose numeric fields may be missing. -/
structure PromptTokensDetails where
  audio_tokens : Option Nat := none
  cached_tokens : Option Nat := none
  deriving DecidableEq, Repr

/-- Modelled from the spec: the nested `completion_tokens_details`
block of a raw OpenAI-style usage payload. -/
structure CompletionTokensDetails where
  audio_tokens : Option Nat := none
  reasoning_tokens : Option Nat := none
  deriving DecidableEq, Repr

/-- Modelled from the spec: a raw provider `CompletionUsage` wire
payload, every numeric field possibly missing (`None`), with the two
optional nested detail blocks. -/
structure CompletionUsage where
  prompt_tokens : Option Nat := none
  completion_tokens : Option Nat := none
  total_tokens : Option Nat := none
  prompt_tokens_details : Option PromptTokensDetails := none
  completion_tokens_details : Option CompletionTokensDetails := none
  deriving DecidableEq, Repr

/-- Modelled from the spec: the adapter's metrics extraction
`_get_metrics` of the OpenAI-style adapters (spec sections 5 and 7(b)):
missing/`None` numeric fields are normalized to 0 before the `Metrics`
snapshot is constructed, and the nested detail fields map to the
dedicated `Metrics` fields (`cached_tokens` to `cache_read_tokens`,
prompt `audio_tokens` to `audio_input_tokens`, completion
`audio_tokens` to `audio_output_tokens`, `reasoning_tokens` to
`reasoning_tokens`). -/
def get_metrics (u : CompletionUsage) : Metrics where
  input_tokens := u.prompt_tokens.getD 0
  output_tokens := u.completion_tokens.getD 0
  total_tokens := u.total_tokens.getD 0
  reasoning_tokens := ((u.completion_tokens_details.map CompletionTokensDetails.reasoning_tokens).getD none).getD 0
  cache_read_tokens := ((u.prompt_tokens_details.map PromptTokensDetails.cached_tokens).getD none).getD 0
  cache_write_tokens := 0
  audio_input_tokens := ((u.prompt_tokens_details.map PromptTokensDetails.audio_tokens).getD none).getD 0
  audio_output_tokens := ((u.completion_tokens_details.map CompletionTokensDetails.audio_tokens).getD none).getD 0

/-- In-order concatenation of a list of string fragments. -/
def joinFrags : List String → String
  | [] => ""
  | s :: rest => s ++ joinFrags rest

/-! ### Helper lemmas: each absorb step touches only its own field -/

@[simp] lemma absorbContent_tool_call_fragments (d : MessageData) (r : ModelResponse) :
    (absorbContent d r).tool_call_fragments = d.tool_call_fragments := by
  cases h : r.content_fragment <;> simp [absorbContent, h]

@[simp] lemma absorbContent_response_metrics (d : MessageData) (r : ModelResponse) :
    (absorbContent d r).response_metrics = d.response_metrics := by
  cases h : r.content_fragment <;> simp [absorbContent, h]

@[simp] lemma absorbContent_reasoning_trace (d : MessageData) (r : ModelResponse) :
    (absorbContent d r).reasoning_trace = d.reasoning_trace := by
  cases h : r.content_fragment <;> simp [absorbContent, h]

@[simp] lemma absorbToolCall_accumulated_text (d : MessageData) (r : ModelResponse) :
    (absorbToolCall d r).accumulated_text = d.accumulated_text := by
  cases h : r.tool_call_fragment <;> simp [absorbToolCall, h]

@[simp] lemma absorbToolCall_response_metrics (d : MessageData) (r : ModelResponse) :
    (absorbToolCall d r).response_metrics = d.response_metrics := by
  cases h : r.tool_call_fragment <;> simp [absorbToolCall, h]

@[simp] lemma absorbToolCall_reasoning_trace (d : MessageData) (r : ModelResponse) :
    (absorbToolCall d r).reasoning_trace = d.reasoning_trace := by
  cases h : r.tool_call_fragment <;> simp [absorbToolCall, h]

@[simp] lemma absorbUsage_accumulated_text (flag : Bool) (d : MessageData) (r : ModelResponse) :
    (absorbUsage flag d r).accumulated_text = d.accumulated_text := by
  cases h : r.response_usage <;> simp [absorbUsage, h]

@[simp] lemma absorbUsage_tool_call_fragments (flag : Bool) (d : MessageData) (r : ModelResponse) :
    (absorbUsage flag d r).tool_call_fragments = d.tool_call_fragments := by
  cases h : r.response_usage <;> simp [absorbUsage, h]

@[simp] lemma absorbUsage_reasoning_trace (flag : Bool) (d : MessageData) (r : ModelResponse) :
    (absorbUsage flag d r).reasoning_trace = d.reasoning_trace := by
  cases h : r.response_usage <;> simp [absorbUsage, h]

@[simp] lemma absorbReasoning_accumulated_text (d : MessageData) (r : ModelResponse) :
    (absorbReasoning d r).accumulated_text = d.accumulated_text := by
  cases h : r.reasoning_fragment <;> simp [absorbReasoning, h]

@[simp] lemma absorbReasoning_tool_call_fragments (d : MessageData) (r : ModelResponse) :
    (absorbReasoning d r).tool_call_fragments = d.tool_call_fragments := by
  cases h : r.reasoning_fragment <;> simp [absorbReasoning, h]

@[simp] lemma absorbReasoning_response_metrics (d : MessageData) (r : ModelResponse) :
    (absorbReasoning d r).response_metrics = d.response_metrics := by
  cases h : r.reasoning_fragment <;> simp [absorbReasoning, h]

/-! ### Helper lemmas: the effect of one absorb on each field -/

lemma absorb_response_metrics (flag : Bool) (d : MessageData) (r : ModelResponse) :
    (absorb flag d r).response_metrics =
      match r.response_usage with
      | none => d.response_metrics
      | some m => mergeUsage flag d.response_metrics m := by
  cases h : r.response_usage <;> simp [absorb, absorbUsage, h]

lemma absorb_accumulated_text (flag : Bool) (d : MessageData) (r : ModelResponse) :
    (absorb flag d r).accumulated_text =
      match r.content_fragment with
      | none => d.accumulated_text
      | some c => d.accumulated_text ++ c := by
  cases h : r.content_fragment <;> simp [absorb, absorbContent, h]

lemma absorb_reasoning_trace (flag : Bool) (d : MessageData) (r : ModelResponse) :
    (absorb flag d r).reasoning_trace =
      match r.reasoning_fragment with
      | none => d.reasoning_trace
      | some c => some (d.reasoning_trace.getD "" ++ c) := by
  cases h : r.reasoning_fragment <;> simp [absorb, absorbReasoning, h]

/-- Absorbing a stream only ever merges, into `response_metrics`, the
usage snapshots actually present, in order. -/
lemma absorbList_response_metrics (flag : Bool) (rs : List ModelResponse) (d : MessageData) :
    (absorbList flag d rs).response_metrics =
      (rs.filterMap ModelResponse.response_usage).foldl (mergeUsage flag) d.response_metrics := by
  induction rs generalizing d with
  | nil => simp [absorbList]
  | cons r rs ih =>
    have hstep : absorbList flag d (r :: rs) = absorbList flag (absorb flag d r) rs := rfl
    rw [hstep, ih]
    cases h : r.response_usage with
    | none => simp [List.filterMap_cons, h, absorb_response_metrics]
    | some m => simp [List.filterMap_cons, h, absorb_response_metrics]

/-! ### Helper lemmas: the two merge policies over a whole stream -/

lemma mergeUsage_true (acc : Option Metrics) (m : Metrics) :
    mergeUsage true acc m = some m := by
  cases acc <;> simp [mergeUsage]

lemma foldl_mergeUsage_false (ms : List Metrics) (m0 : Metrics) :
    ms.foldl (mergeUsage false) (some m0) = some (ms.foldl Metrics.add m0) := by
  induction ms generalizing m0 with
  | nil => rfl
  | cons m ms ih => simp [List.foldl_cons, mergeUsage, ih]

lemma foldl_mergeUsage_true (ms : List Metrics) (acc : Option Metrics) :
    ms.foldl (mergeUsage true) acc = ms.getLast?.elim acc some := by
  induction ms generalizing acc with
  | nil => rfl
  | cons m ms ih =>
    rw [List.foldl_cons, mergeUsage_true, ih]
    cases ms with
    | nil => rfl
    | cons b l =>
      rw [List.getLast?_cons_cons]
      have hne : (b :: l) ≠ [] := by simp
      obtain ⟨x, hx⟩ := Option.isSome_iff_exists.mp (List.getLast?_isSome.mpr hne)
      rw [hx]
      rfl

lemma Metrics.empty_add (m : Metrics) : Metrics.add {} m = m := by
  cases m
  simp [Metrics.add]

lemma foldl_add_proj (f : Metrics → Nat) (hf : ∀ a b, f (a.add b) = f a + f b)
    (ms : List Metrics) (a : Metrics) :
    f (ms.foldl Metrics.add a) = f a + (ms.map f).sum := by
  induction ms generalizing a with
  | nil => simp
  | cons m ms ih => simp [List.foldl_cons, ih, hf, Nat.add_assoc]

/-! ### Helper lemmas: strings -/

lemma joinFrags_cons (s : String) (rest : List String) :
    joinFrags (s :: rest) = s ++ joinFrags rest := rfl

/-- Absorbing the all-fields-absent delta changes nothing: every field
match falls through to the identity branch. -/
lemma absorb_empty_delta (flag : Bool) (d : MessageData) (fin : Bool) :
    absorb flag d { is_final := fin } = d := rfl

/-- The accumulated text after a stream is the starting text followed by
the in-order concatenation of the content fragments present. -/
lemma absorbList_accumulated_text (flag : Bool) (rs : List ModelResponse) (d : MessageData) :
    (absorbList flag d rs).accumulated_text
      = d.accumulated_text ++ joinFrags (rs.filterMap ModelResponse.content_fragment) := by
  induction rs generalizing d with
  | nil => simp [absorbList, joinFrags]
  | cons r rs ih =>
    have hstep : absorbList flag d (r :: rs) = absorbList flag (absorb flag d r) rs := rfl
    rw [hstep, ih, absorb_accumulated_text]
    cases h : r.content_fragment with
    | none => simp [List.filterMap_cons, h]
    | some c => simp [List.filterMap_cons, h, joinFrags_cons, String.append_assoc]

/-- The reasoning trace after a stream (read as a string, an absent
trace counting as empty) is the starting trace followed by the in-order
concatenation of the reasoning fragments present. -/
lemma absorbList_reasoning_trace (flag : Bool) (rs : List ModelResponse) (d : MessageData) :
    (absorbList flag d rs).reasoning_trace.getD ""
      = d.reasoning_trace.getD "" ++ joinFrags (rs.filterMap ModelResponse.reasoning_fragment) := by
  induction rs generalizing d with
  | nil => simp [absorbList, joinFrags]
  | cons r rs ih =>
    have hstep : absorbList flag d (r :: rs) = absorbList flag (absorb flag d r) rs := rfl
    rw [hstep, ih, absorb_reasoning_trace]
    cases h : r.reasoning_fragment with
    | none => simp [List.filterMap_cons, h]
    | some c => simp [List.filterMap_cons, h, joinFrags_cons, String.append_assoc]

/-! ### Claims -/

/-- C1: for every stream absorbed under the additive policy (capability
flag `false`), if the deltas carry metrics snapshots `m1, ..., mn`
(deltas without usage contributing nothing), then after all absorbs the
accumulator's `response_metrics` equals the field-wise sum of `m1`
through `mn`, for every counter field. -/
theorem additive_stream_sums_snapshots (rs : List ModelResponse)
    (h : rs.filterMap ModelResponse.response_usage ≠ []) :
    ∃ m, (absorbList false {} rs).response_metrics = some m
      ∧ m.input_tokens = ((rs.filterMap ModelResponse.response_usage).map Metrics.input_tokens).sum
      ∧ m.output_tokens = ((rs.filterMap ModelResponse.response_usage).map Metrics.output_tokens).sum
      ∧ m.total_tokens = ((rs.filterMap ModelResponse.response_usage).map Metrics.total_tokens).sum
      ∧ m.reasoning_tokens
          = ((rs.filterMap ModelResponse.response_usage).map Metrics.reasoning_tokens).sum
      ∧ m.cache_read_tokens
          = ((rs.filterMap ModelResponse.response_usage).map Metrics.cache_read_tokens).sum
      ∧ m.cache_write_tokens
          = ((rs.filterMap ModelResponse.response_usage).map Metrics.cache_write_tokens).sum
      ∧ m.audio_input_tokens
          = ((rs.filterMap ModelResponse.response_usage).map Metrics.audio_input_tokens).sum
      ∧ m.audio_output_tokens
          = ((rs.filterMap ModelResponse.response_usage).map Metrics.audio_output_tokens).sum := by
  obtain ⟨m1, rest, hms⟩ := List.exists_cons_of_ne_nil h
  have hmetrics : (absorbList false {} rs).response_metrics
      = some (rest.foldl Metrics.add m1) := by
    rw [absorbList_response_metrics, hms]
    show (m1 :: rest).foldl (mergeUsage false) none = _
    rw [List.foldl_cons]
    show rest.foldl (mergeUsage false) (some m1) = _
    exact foldl_mergeUsage_false rest m1
  have h1 := foldl_add_proj Metrics.input_tokens (fun a b => rfl) rest m1
  have h2 := foldl_add_proj Metrics.output_tokens (fun a b => rfl) rest m1
  have h3 := foldl_add_proj Metrics.total_tokens (fun a b => rfl) rest m1
  have h4 := foldl_add_proj Metrics.reasoning_tokens (fun a b => rfl) rest m1
  have h5 := foldl_add_proj Metrics.cache_read_tokens (fun a b => rfl) rest m1
  have h6 := foldl_add_proj Metrics.cache_write_tokens (fun a b => rfl) rest m1
  have h7 := foldl_add_proj Metrics.audio_input_tokens (fun a b => rfl) rest m1
  have h8 := foldl_add_proj Metrics.audio_output_tokens (fun a b => rfl) rest m1
  refine ⟨rest.foldl Metrics.add m1, hmetrics, ?_, ?_, ?_, ?_, ?_, ?_, ?_, ?_⟩ <;>
    rw [hms] <;> simp [h1, h2, h3, h4, h5, h6, h7, h8]

/-- A concrete additive-policy stream: the OpenAI streaming simulation
of `test_openai_streaming_metrics_simulation`, with one usage-free
delta interleaved. -/
def openaiStream : List ModelResponse :=
  [{ response_usage := some { input_tokens := 100, output_tokens := 1, total_tokens := 101 } },
   { content_fragment := some "Hello" },
   { response_usage := some { output_tokens := 1, total_tokens := 1 } },
   { response_usage := some { output_tokens := 1, total_tokens := 1 }, is_final := true }]

/-- Witness for C1: on the concrete OpenAI-style stream the additive
fold yields the field-wise sums (100, 3, 103, 0, ...). -/
theorem additive_stream_sums_snapshots_witness :
    openaiStream.filterMap ModelResponse.response_usage ≠ [] ∧
    (∃ m, (absorbList false {} openaiStream).response_metrics = some m
      ∧ m.input_tokens
          = ((openaiStream.filterMap ModelResponse.response_usage).map Metrics.input_tokens).sum
      ∧ m.output_tokens
          = ((openaiStream.filterMap ModelResponse.response_usage).map Metrics.output_tokens).sum
      ∧ m.total_tokens
          = ((openaiStream.filterMap ModelResponse.response_usage).map Metrics.total_tokens).sum
      ∧ m.reasoning_tokens
          = ((openaiStream.filterMap ModelResponse.response_usage).map Metrics.reasoning_tokens).sum
      ∧ m.cache_read_tokens
          = ((openaiStream.filterMap ModelResponse.response_usage).map Metrics.cache_read_tokens).sum
      ∧ m.cache_write_tokens
          = ((openaiStream.filterMap ModelResponse.response_usage).map Metrics.cache_write_tokens).sum
      ∧ m.audio_input_tokens
          = ((openaiStream.filterMap ModelResponse.response_usage).map Metrics.audio_input_tokens).sum
      ∧ m.audio_output_tokens
          = ((openaiStream.filterMap ModelResponse.response_usage).map Metrics.audio_output_tokens).sum) :=
  ⟨by decide, additive_stream_sums_snapshots openaiStream (by decide)⟩

/-- C2: for every stream absorbed under the replace policy (capability
flag `true`), the final `response_metrics` is exactly the last usage
snapshot carried by the stream (absent when no delta carried usage),
independent of the values of earlier snapshots. -/
theorem replace_stream_keeps_last_snapshot (rs : List ModelResponse) :
    (absorbList true {} rs).response_metrics
      = (rs.filterMap ModelResponse.response_usage).getLast? := by
  rw [absorbList_response_metrics, foldl_mergeUsage_true]
  cases hl : (rs.filterMap ModelResponse.response_usage).getLast? <;> rfl

/-- C3: for every accumulator whose `response_metrics` is absent (the
state at creation), absorbing a delta that carries a usage snapshot
sets `response_metrics` to that exact snapshot, under both policies
(the capability flag is universally quantified). -/
theorem first_usage_snapshot_initializes (flag : Bool) (text : String)
    (tcs : List ToolCallFragment) (rt : Option String) (c : Option String)
    (t : Option ToolCallFragment) (m : Metrics) (rf : Option String) (fin : Bool) :
    (absorb flag ⟨text, tcs, none, rt⟩ ⟨c, t, some m, rf, fin⟩).response_metrics = some m := by
  rw [absorb_response_metrics]
  rfl

/-- C4: the detailed counter fields follow the same merge policy as the
primary counters: under the additive policy every detailed field of the
final `response_metrics` is the sum over all snapshots, and under the
replace policy it equals the last snapshot's value, each field
independently. -/
theorem detailed_fields_follow_policy (rs : List ModelResponse)
    (h : rs.filterMap ModelResponse.response_usage ≠ []) :
    (∃ m, (absorbList false {} rs).response_metrics = some m
      ∧ m.reasoning_tokens
          = ((rs.filterMap ModelResponse.response_usage).map Metrics.reasoning_tokens).sum
      ∧ m.cache_read_tokens
          = ((rs.filterMap ModelResponse.response_usage).map Metrics.cache_read_tokens).sum
      ∧ m.cache_write_tokens
          = ((rs.filterMap ModelResponse.response_usage).map Metrics.cache_write_tokens).sum
      ∧ m.audio_input_tokens
          = ((rs.filterMap ModelResponse.response_usage).map Metrics.audio_input_tokens).sum
      ∧ m.audio_output_tokens
          = ((rs.filterMap ModelResponse.response_usage).map Metrics.audio_output_tokens).sum)
    ∧ (∃ m, (absorbList true {} rs).response_metrics = some m
      ∧ m.reasoning_tokens
          = ((rs.filterMap ModelResponse.response_usage).getLast h).reasoning_tokens
      ∧ m.cache_read_tokens
          = ((rs.filterMap ModelResponse.response_usage).getLast h).cache_read_tokens
      ∧ m.cache_write_tokens
          = ((rs.filterMap ModelResponse.response_usage).getLast h).cache_write_tokens
      ∧ m.audio_input_tokens
          = ((rs.filterMap ModelResponse.response_usage).getLast h).audio_input_tokens
      ∧ m.audio_output_tokens
          = ((rs.filterMap ModelResponse.response_usage).getLast h).audio_output_tokens) := by
  constructor
  · obtain ⟨m1, rest, hms⟩ := List.exists_cons_of_ne_nil h
    have hmetrics : (absorbList false {} rs).response_metrics
        = some (rest.foldl Metrics.add m1) := by
      rw [absorbList_response_metrics, hms]
      show (m1 :: rest).foldl (mergeUsage false) none = _
      rw [List.foldl_cons]
      show rest.foldl (mergeUsage false) (some m1) = _
      exact foldl_mergeUsage_false rest m1
    have h4 := foldl_add_proj Metrics.reasoning_tokens (fun a b => rfl) rest m1
    have h5 := foldl_add_proj Metrics.cache_read_tokens (fun a b => rfl) rest m1
    have h6 := foldl_add_proj Metrics.cache_write_tokens (fun a b => rfl) rest m1
    have h7 := foldl_add_proj Metrics.audio_input_tokens (fun a b => rfl) rest m1
    have h8 := foldl_add_proj Metrics.audio_output_tokens (fun a b => rfl) rest m1
    refine ⟨rest.foldl Metrics.add m1, hmetrics, ?_, ?_, ?_, ?_, ?_⟩ <;>
      rw [hms] <;> simp [h4, h5, h6, h7, h8]
  · have hmetrics : (absorbList true {} rs).response_metrics
        = some ((rs.filterMap ModelResponse.response_usage).getLast h) := by
      rw [absorbList_response_metrics, foldl_mergeUsage_true,
        List.getLast?_eq_getLast _ h]
      rfl
    exact ⟨_, hmetrics, rfl, rfl, rfl, rfl, rfl⟩

/-- First snapshot of the concrete detailed stream, in the style of
`test_cumulative_usage_with_detailed_metrics`. -/
def detailedSnap1 : Metrics :=
  { input_tokens := 100, output_tokens := 5, total_tokens := 105, reasoning_tokens := 10,
    cache_read_tokens := 50, cache_write_tokens := 7, audio_input_tokens := 3,
    audio_output_tokens := 2 }

/-- Second snapshot of the concrete detailed stream. -/
def detailedSnap2 : Metrics :=
  { output_tokens := 3, total_tokens := 3, reasoning_tokens := 5, cache_write_tokens := 1,
    audio_input_tokens := 2, audio_output_tokens := 4 }

/-- A concrete stream with all detailed counter fields set. -/
def detailedStream : List ModelResponse :=
  [{ response_usage := some detailedSnap1 },
   { response_usage := some detailedSnap2, is_final := true }]

/-- Witness for C4: on the concrete detailed stream the additive fold
sums every detailed field and the replace fold keeps the last
snapshot's detailed fields. -/
theorem detailed_fields_follow_policy_witness :
    detailedStream.filterMap ModelResponse.response_usage ≠ [] ∧
    ((∃ m, (absorbList false {} detailedStream).response_metrics = some m
      ∧ m.reasoning_tokens
          = ((detailedStream.filterMap ModelResponse.response_usage).map Metrics.reasoning_tokens).sum
      ∧ m.cache_read_tokens
          = ((detailedStream.filterMap ModelResponse.response_usage).map Metrics.cache_read_tokens).sum
      ∧ m.cache_write_tokens
          = ((detailedStream.filterMap ModelResponse.response_usage).map Metrics.cache_write_tokens).sum
      ∧ m.audio_input_tokens
          = ((detailedStream.filterMap ModelResponse.response_usage).map Metrics.audio_input_tokens).sum
      ∧ m.audio_output_tokens
          = ((detailedStream.filterMap ModelResponse.response_usage).map Metrics.audio_output_tokens).sum)
    ∧ (∃ m, (absorbList true {} detailedStream).response_metrics = some m
      ∧ m.reasoning_tokens
          = ((detailedStream.filterMap ModelResponse.response_usage).getLast (by decide)).reasoning_tokens
      ∧ m.cache_read_tokens
          = ((detailedStream.filterMap ModelResponse.response_usage).getLast (by decide)).cache_read_tokens
      ∧ m.cache_write_tokens
          = ((detailedStream.filterMap ModelResponse.response_usage).getLast (by decide)).cache_write_tokens
      ∧ m.audio_input_tokens
          = ((detailedStream.filterMap ModelResponse.response_usage).getLast (by decide)).audio_input_tokens
      ∧ m.audio_output_tokens
          = ((detailedStream.filterMap ModelResponse.response_usage).getLast (by decide)).audio_output_tokens)) :=
  ⟨by decide, detailed_fields_follow_policy detailedStream (by decide)⟩

/-- C5: absorbing a delta whose usage part is absent leaves
`response_metrics` unchanged, whatever the accumulator state, the
policy, and the delta's other parts; consequently inserting an
all-fields-absent delta between two deltas yields the same final state
as absorbing the two deltas consecutively. -/
theorem usage_absent_is_metrics_noop :
    (∀ (flag : Bool) (d : MessageData) (c : Option String) (t : Option ToolCallFragment)
        (rf : Option String) (fin : Bool),
      (absorb flag d ⟨c, t, none, rf, fin⟩).response_metrics = d.response_metrics)
    ∧ (∀ (flag : Bool) (d : MessageData) (r1 r2 : ModelResponse),
      absorbList flag d [r1, { is_final := false }, r2] = absorbList flag d [r1, r2]) := by
  constructor
  · intro flag d c t rf fin
    rw [absorb_response_metrics]
  · intro flag d r1 r2
    show absorb flag (absorb flag (absorb flag d r1) { is_final := false }) r2
        = absorb flag (absorb flag d r1) r2
    rw [absorb_empty_delta]

/-- C6: each provider adapter fixes its capability flag according to
its wire protocol: the Claude, Gemini and Perplexity adapters construct
with `is_cumulative_usage = true` (replace policy) and the OpenAIChat
adapter keeps the default `false` (additive policy). -/
theorem provider_capability_flags :
    Claude.is_cumulative_usage = true ∧ Gemini.is_cumulative_usage = true
      ∧ Perplexity.is_cumulative_usage = true
      ∧ OpenAIChat.is_cumulative_usage = false :=
  ⟨rfl, rfl, rfl, rfl⟩

/-- C7: the adapter's metrics extraction normalizes missing/`None`
numeric fields to 0: for every raw usage payload whose `prompt_tokens`,
`completion_tokens` and `total_tokens` are all `None` (and whatever the
detail blocks hold), the resulting `Metrics` has `input_tokens = 0`,
`output_tokens = 0` and `total_tokens = 0`, never an absent value. -/
theorem get_metrics_normalizes_none (ptd : Option PromptTokensDetails)
    (ctd : Option CompletionTokensDetails) :
    (get_metrics ⟨none, none, none, ptd, ctd⟩).input_tokens = 0
      ∧ (get_metrics ⟨none, none, none, ptd, ctd⟩).output_tokens = 0
      ∧ (get_metrics ⟨none, none, none, ptd, ctd⟩).total_tokens = 0 :=
  ⟨rfl, rfl, rfl⟩

/-- C8: absorb is total on well-typed deltas — in this embedding it is
a total function, defined for every delta carrying any subset of the
optional parts — and the delta with all optional parts absent is valid
and leaves the entire accumulator state unchanged, under both policies
and either value of the informational `is_final` flag. -/
theorem absorb_empty_delta_inert :
    ∀ (flag : Bool) (d : MessageData) (fin : Bool),
      absorb flag d { is_final := fin } = d :=
  fun flag d fin => absorb_empty_delta flag d fin

/-- C9: for every sequence of deltas and every starting state, the
accumulated text after absorbing them is the starting text followed by
the in-order concatenation of the content fragments present, and the
reasoning trace is likewise the in-order concatenation of the
reasoning fragments present — so each absorb only ever appends,
regardless of interleaving with metrics-only or tool-call-only deltas
and of the policy flag. -/
theorem text_and_reasoning_append_only (flag : Bool) (d : MessageData)
    (rs : List ModelResponse) :
    (absorbList flag d rs).accumulated_text
        = d.accumulated_text ++ joinFrags (rs.filterMap ModelResponse.content_fragment)
      ∧ (absorbList flag d rs).reasoning_trace.getD ""
        = d.reasoning_trace.getD ""
            ++ joinFrags (rs.filterMap ModelResponse.reasoning_fragment) :=
  ⟨absorbList_accumulated_text flag rs d, absorbList_reasoning_trace flag rs d⟩

/-- C10: the adapter's metrics extraction maps the nested detail fields
of a raw usage payload to the dedicated `Metrics` fields:
`prompt_tokens_details.cached_tokens` becomes `cache_read_tokens`,
`prompt_tokens_details.audio_tokens` becomes `audio_input_tokens`,
`completion_tokens_details.audio_tokens` becomes `audio_output_tokens`
and `completion_tokens_details.reasoning_tokens` becomes
`reasoning_tokens`, for every payload carrying these details. -/
theorem get_metrics_maps_detail_fields (pt ct tt : Option Nat) (a1 c1 a2 r2 : Nat) :
    (get_metrics ⟨pt, ct, tt, some ⟨some a1, some c1⟩, some ⟨some a2, some r2⟩⟩).cache_read_tokens = c1
      ∧ (get_metrics ⟨pt, ct, tt, some ⟨some a1, some c1⟩, some ⟨some a2, some r2⟩⟩).audio_input_tokens = a1
      ∧ (get_metrics ⟨pt, ct, tt, some ⟨some a1, some c1⟩, some ⟨some a2, some r2⟩⟩).audio_output_tokens = a2
      ∧ (get_metrics ⟨pt, ct, tt, some ⟨some a1, some c1⟩, some ⟨some a2, some r2⟩⟩).reasoning_tokens = r2 :=
  ⟨rfl, rfl, rfl, rfl⟩

end Agno
